import Mathlib

set_option autoImplicit false

/-!
Shallow embedding of the device CRUD core of the repository:
the in-memory device repository (src/repositories/device.repository.ts),
the device service (src/services/device.service.ts), the controller
(src/controllers/device.controller.ts), and the shared types, validation
and response-builder utilities (src/main.ts).

Modelling conventions:
* JavaScript `Date` values are modelled as natural-number timestamps; every
  place the source calls `new Date()` or `Date.now()` the embedding takes an
  explicit `now : Nat` argument.
* `Math.random().toString(36).substr(2, 9)` is modelled as an explicit
  `rand : String` argument (a draw from the random-number generator).
* The JavaScript `Map<string, Device>` is modelled as an insertion-ordered
  association list with `Map.get` / `Map.set` / `Map.delete` semantics.
* Promises carry no concurrency here (the spec notes the in-memory
  implementation never suspends), so `async` methods become plain functions;
  thrown exceptions become `Except` values.
-/

/-- The `DeviceType` union from src/main.ts. -/
inductive DeviceType where
  | axialFan
  | delugeValve
  | firePanel
  | pump
deriving DecidableEq

/-- The `DeviceStatus` union from src/main.ts. -/
inductive DeviceStatus where
  | online
  | offline
  | maintenance
  | error
deriving DecidableEq

/-- The `DeviceMetadata` interface from src/main.ts: four optional string
sub-fields. -/
structure DeviceMetadata where
  location : Option String := none
  manufacturer : Option String := none
  model : Option String := none
  version : Option String := none
deriving DecidableEq

/-- The `Device` interface from src/main.ts. `lastUpdate : Date` is modelled
as a natural-number timestamp. -/
structure Device where
  id : String
  name : String
  type : DeviceType
  status : DeviceStatus
  lastUpdate : Nat
  metadata : DeviceMetadata
deriving DecidableEq

/-- TypeScript `Partial<Device>`: every field optional, presence meaning the
field occurs in the object literal spread into the update. -/
structure PartialDevice where
  id : Option String := none
  name : Option String := none
  type : Option DeviceType := none
  status : Option DeviceStatus := none
  lastUpdate : Option Nat := none
  metadata : Option DeviceMetadata := none
deriving DecidableEq

/-- TypeScript `Omit<Device, 'id'>`, the argument of `create`. -/
structure DeviceData where
  name : String
  type : DeviceType
  status : DeviceStatus
  lastUpdate : Nat
  metadata : DeviceMetadata
deriving DecidableEq

/-- `Map.get` on a string-keyed association list. -/
def assocGet {α : Type} : List (String × α) → String → Option α
  | [], _ => none
  | (k, v) :: rest, key => if k = key then some v else assocGet rest key

/-- `Map.set` on a string-keyed association list: replace in place when the
key is present (JavaScript `Map.set` keeps the original insertion position),
append otherwise. -/
def assocSet {α : Type} : List (String × α) → String → α → List (String × α)
  | [], key, value => [(key, value)]
  | (k, v) :: rest, key, value =>
    if k = key then (key, value) :: rest else (k, v) :: assocSet rest key value

/-- `Map.delete` on a string-keyed association list: returns whether the key
was present together with the remaining entries. -/
def assocDelete {α : Type} : List (String × α) → String → Bool × List (String × α)
  | [], _ => (false, [])
  | (k, v) :: rest, key =>
    if k = key then (true, rest)
    else
      let r := assocDelete rest key
      (r.1, (k, v) :: r.2)

/-- The backing `Map<string, Device>` of `InMemoryDeviceRepository`. -/
abbrev Store := List (String × Device)

/-- `InMemoryDeviceRepository.generateId`:
the template literal `device_(Date.now())_(random suffix)`, with the clock
value and the base-36 random suffix passed in explicitly. -/
def generateId (now : Nat) (rand : String) : String :=
  "device_" ++ Nat.repr now ++ "_" ++ rand

/-- `InMemoryDeviceRepository.findById`. -/
def repoFindById (s : Store) (id : String) : Option Device :=
  assocGet s id

/-- `InMemoryDeviceRepository.findAll`: `Array.from(map.values())`. -/
def repoFindAll (s : Store) : List Device :=
  s.map Prod.snd

/-- `InMemoryDeviceRepository.create`: stamps a generated id onto the given
data and stores the device under that id. -/
def repoCreate (s : Store) (deviceData : DeviceData) (now : Nat) (rand : String) :
    Device × Store :=
  let id := generateId now rand
  let device : Device :=
    { id := id
      name := deviceData.name
      type := deviceData.type
      status := deviceData.status
      lastUpdate := deviceData.lastUpdate
      metadata := deviceData.metadata }
  (device, assocSet s id device)

/-- `InMemoryDeviceRepository.update`: the object spread
`(...existing, ...updates, id, lastUpdate: new Date())` — each field of
`updates` overwrites when present, then `id` is pinned to the key and
`lastUpdate` is re-stamped with the current clock, overriding both the
existing value and any value carried by `updates`. -/
def repoUpdate (s : Store) (id : String) (updates : PartialDevice) (now : Nat) :
    Option Device × Store :=
  match assocGet s id with
  | none => (none, s)
  | some existing =>
    let updated : Device :=
      { id := id
        name := updates.name.getD existing.name
        type := updates.type.getD existing.type
        status := updates.status.getD existing.status
        lastUpdate := now
        metadata := updates.metadata.getD existing.metadata }
    (some updated, assocSet s id updated)

/-- `InMemoryDeviceRepository.delete`. -/
def repoDelete (s : Store) (id : String) : Bool × Store :=
  assocDelete s id

/-- First sample device from `InMemoryDeviceRepository.seedData`. -/
def seedDevice1 (t : Nat) : Device :=
  { id := "device_001"
    name := "Axial Fan A1"
    type := .axialFan
    status := .online
    lastUpdate := t
    metadata :=
      { location := some "Building A"
        manufacturer := some "TechCorp"
        model := some "AF-100"
        version := some "1.2.3" } }

/-- Second sample device from `InMemoryDeviceRepository.seedData`. -/
def seedDevice2 (t : Nat) : Device :=
  { id := "device_002"
    name := "Fire Panel Main"
    type := .firePanel
    status := .online
    lastUpdate := t
    metadata :=
      { location := some "Control Room"
        manufacturer := some "SafeCorp"
        model := some "FP-200"
        version := some "2.1.0" } }

/-- The store right after the constructor ran `seedData`: both sample devices
inserted under their own ids, in order. `t1`, `t2` are the two `new Date()`
values taken while building the sample array. -/
def initialStore (t1 t2 : Nat) : Store :=
  assocSet (assocSet [] (seedDevice1 t1).id (seedDevice1 t1)) (seedDevice2 t2).id (seedDevice2 t2)

/-- Untyped JSON-like values, modelling the `unknown` body a caller hands to
the controller and the validation layer. -/
inductive Json where
  | str (s : String)
  | num (n : Int)
  | boolVal (b : Bool)
  | nullVal
  | obj (fields : List (String × Json))
  | arr (elems : List Json)

/-- The error taxonomy of src/main.ts: `ValidationError` (message, optional
offending field), `NotFoundError` (resource kind, identifier), and the plain
`Error` the service throws on an unexpected repository failure. -/
inductive DomainError where
  | validation (message : String) (field : Option String)
  | notFound (resource : String) (id : String)
  | generic (message : String)
deriving DecidableEq

/-- The JavaScript `error.name` of each error kind (class name for the two
`DomainError` subclasses, `"Error"` for a plain `Error`). -/
def DomainError.name : DomainError → String
  | .validation _ _ => "ValidationError"
  | .notFound _ _ => "NotFoundError"
  | .generic _ => "Error"

/-- The `error.message` of each error kind; `NotFoundError` builds
`"<resource> with id '<id>' not found"` in its constructor. -/
def DomainError.message : DomainError → String
  | .validation m _ => m
  | .notFound resource id => resource ++ " with id '" ++ id ++ "' not found"
  | .generic m => m

/-- The `code` property a `DomainError` subclass carries
(`VALIDATION_ERROR` / `NOT_FOUND`); a plain `Error` has none. -/
def DomainError.code : DomainError → Option String
  | .validation _ _ => some "VALIDATION_ERROR"
  | .notFound _ _ => some "NOT_FOUND"
  | .generic _ => none

/-- The `statusCode` property a `DomainError` subclass carries
(400 / 404); a plain `Error` has none. -/
def DomainError.statusCode : DomainError → Option Nat
  | .validation _ _ => some 400
  | .notFound _ _ => some 404
  | .generic _ => none

/-- The `field` property only `ValidationError` carries. -/
def DomainError.field : DomainError → Option String
  | .validation _ f => f
  | _ => none

/-- The validated shape `DeviceUpdateRequest` from src/main.ts: optional name,
status and metadata. (zod parses `metadata` sub-fields as optional strings,
matching `DeviceMetadata`.) -/
structure DeviceUpdateRequest where
  name : Option String := none
  status : Option DeviceStatus := none
  metadata : Option DeviceMetadata := none
deriving DecidableEq

/-- Decode of the `z.enum(['ONLINE', 'OFFLINE', 'MAINTENANCE', 'ERROR'])`
member check. -/
def decodeStatus : Json → Option DeviceStatus
  | .str "ONLINE" => some .online
  | .str "OFFLINE" => some .offline
  | .str "MAINTENANCE" => some .maintenance
  | .str "ERROR" => some .error
  | _ => none

/-- The `name` field of `deviceUpdateSchema`:
`z.string().min(1).max(100).optional()`. Errors carry a (field path, message)
pair modelling the first zod issue; the exact library message texts are
abstracted. -/
def parseNameField : Option Json → Except (String × String) (Option String)
  | none => .ok none
  | some (.str s) =>
    if s.length < 1 then .error ("name", "String must contain at least 1 character")
    else if 100 < s.length then .error ("name", "String must contain at most 100 characters")
    else .ok (some s)
  | some _ => .error ("name", "Expected string")

/-- The `status` field of `deviceUpdateSchema`: optional closed enum. -/
def parseStatusField : Option Json → Except (String × String) (Option DeviceStatus)
  | none => .ok none
  | some v =>
    match decodeStatus v with
    | some st => .ok (some st)
    | none => .error ("status", "Invalid enum value")

/-- One optional-string sub-field of the `metadata` object schema. -/
def parseMetaStr (field : String) : Option Json → Except (String × String) (Option String)
  | none => .ok none
  | some (.str s) => .ok (some s)
  | some _ => .error ("metadata." ++ field, "Expected string")

/-- The `metadata` field of `deviceUpdateSchema`: an optional object of four
optional strings; unknown keys are dropped. -/
def parseMetadataField : Option Json → Except (String × String) (Option DeviceMetadata)
  | none => .ok none
  | some (.obj fields) =>
    match parseMetaStr "location" (assocGet fields "location") with
    | .error fm => .error fm
    | .ok loc =>
      match parseMetaStr "manufacturer" (assocGet fields "manufacturer") with
      | .error fm => .error fm
      | .ok manu =>
        match parseMetaStr "model" (assocGet fields "model") with
        | .error fm => .error fm
        | .ok mdl =>
          match parseMetaStr "version" (assocGet fields "version") with
          | .error fm => .error fm
          | .ok ver =>
            .ok (some { location := loc, manufacturer := manu, model := mdl, version := ver })
  | some _ => .error ("metadata", "Expected object")

/-- How `ValidationService.validateDeviceUpdate` converts the first zod issue
into a `ValidationError`: message `Invalid <field>: <message>`, field set to
the issue path. -/
def mkZodValidationError (fm : String × String) : DomainError :=
  .validation ("Invalid " ++ fm.1 ++ ": " ++ fm.2) (some fm.1)

/-- `ValidationService.validateDeviceUpdate`: `deviceUpdateSchema.parse` with
zod issues reported in schema declaration order (name, status, metadata);
unknown top-level keys are dropped; a non-object body yields a zod issue with
an empty path, which the catch block renders as field `unknown`. -/
def ValidationService.validateDeviceUpdate (data : Json) :
    Except DomainError DeviceUpdateRequest :=
  match data with
  | .obj fields =>
    match parseNameField (assocGet fields "name") with
    | .error fm => .error (mkZodValidationError fm)
    | .ok nameOpt =>
      match parseStatusField (assocGet fields "status") with
      | .error fm => .error (mkZodValidationError fm)
      | .ok statusOpt =>
        match parseMetadataField (assocGet fields "metadata") with
        | .error fm => .error (mkZodValidationError fm)
        | .ok metadataOpt =>
          .ok { name := nameOpt, status := statusOpt, metadata := metadataOpt }
  | _ => .error (.validation "Invalid unknown: Expected object" (some "unknown"))

/-- `ValidationService.isValidId`: non-empty and at most 36 characters (the
`typeof id === 'string'` conjunct is vacuous here since `id : String`). -/
def ValidationService.isValidId (id : String) : Bool :=
  decide (0 < id.length) && decide (id.length ≤ 36)

/-- The `ValidationError` thrown by `DeviceService.validateId`. -/
def invalidIdError : DomainError :=
  .validation "Invalid device ID format" (some "id")

/-- `DeviceService.getDevice`: id-shape check first, then repository lookup,
`NotFoundError` when absent. -/
def DeviceService.getDevice (s : Store) (id : String) : Except DomainError Device :=
  if ValidationService.isValidId id then
    match repoFindById s id with
    | none => .error (.notFound "Device" id)
    | some device => .ok device
  else .error invalidIdError

/-- The argument `(...validatedUpdates, lastUpdate: new Date())` the service
passes to `repository.update`. -/
def DeviceUpdateRequest.toPartialDevice (u : DeviceUpdateRequest) (now : Nat) :
    PartialDevice :=
  { name := u.name
    status := u.status
    metadata := u.metadata
    lastUpdate := some now }

/-- `DeviceService.updateDevice` over the injected `IRepository` abstraction:
the service only sees `findById` and `update` functions. Mirrors the source:
id check, body validation, existence check (`NotFoundError`), apply; a `null`
from `repository.update` after a successful existence check becomes the plain
`Error('Failed to update device')`. -/
def DeviceService.updateDeviceWith (find : String → Option Device)
    (applyUpdate : String → PartialDevice → Option Device)
    (id : String) (body : Json) (now : Nat) : Except DomainError Device :=
  if ValidationService.isValidId id then
    match ValidationService.validateDeviceUpdate body with
    | .error e => .error e
    | .ok validatedUpdates =>
      match find id with
      | none => .error (.notFound "Device" id)
      | some _ =>
        match applyUpdate id (validatedUpdates.toPartialDevice now) with
        | none => .error (.generic "Failed to update device")
        | some updatedDevice => .ok updatedDevice
  else .error invalidIdError

/-- `DeviceService.updateDevice` composed with the in-memory repository, with
the store threaded explicitly (the repository mutates its map in place in the
source). -/
def DeviceService.updateDevice (s : Store) (id : String) (body : Json) (now : Nat) :
    Except DomainError Device × Store :=
  if ValidationService.isValidId id then
    match ValidationService.validateDeviceUpdate body with
    | .error e => (.error e, s)
    | .ok validatedUpdates =>
      match repoFindById s id with
      | none => (.error (.notFound "Device" id), s)
      | some _ =>
        match repoUpdate s id (validatedUpdates.toPartialDevice now) now with
        | (none, s2) => (.error (.generic "Failed to update device"), s2)
        | (some updatedDevice, s2) => (.ok updatedDevice, s2)
  else (.error invalidIdError, s)

/-- `DeviceService.listDevices`. -/
def DeviceService.listDevices (s : Store) : List Device :=
  repoFindAll s

/-- The `ApiError` interface from src/main.ts. `details` is a record that no
code path in the repository ever populates. -/
structure ApiError where
  code : String
  message : String
  details : Option (List (String × String)) := none
deriving DecidableEq

/-- The `ApiResponse<T>` envelope from src/main.ts. -/
structure ApiResponse (T : Type) where
  success : Bool
  data : Option T := none
  error : Option ApiError := none
  timestamp : Nat
deriving DecidableEq

/-- `ResponseBuilder.success`. -/
def ResponseBuilder.success {T : Type} (data : T) (now : Nat) : ApiResponse T :=
  { success := true, data := some data, timestamp := now }

/-- `ResponseBuilder.error`. -/
def ResponseBuilder.error {T : Type} (e : ApiError) (now : Nat) : ApiResponse T :=
  { success := false, error := some e, timestamp := now }

/-- `ResponseBuilder.fromError`: keeps only `error.name` and `error.message`. -/
def ResponseBuilder.fromError {T : Type} (e : DomainError) (now : Nat) : ApiResponse T :=
  ResponseBuilder.error { code := e.name, message := e.message } now

/-- `DeviceController.getDevice`: the try/catch boundary, as a total function
on the service outcome. -/
def DeviceController.getDevice (s : Store) (id : String) (now : Nat) :
    ApiResponse Device :=
  match DeviceService.getDevice s id with
  | .ok device => ResponseBuilder.success device now
  | .error e => ResponseBuilder.fromError e now

/-- `DeviceController.updateDevice`, store threaded through. -/
def DeviceController.updateDevice (s : Store) (id : String) (body : Json) (now : Nat) :
    ApiResponse Device × Store :=
  match DeviceService.updateDevice s id body now with
  | (.ok device, s2) => (ResponseBuilder.success device now, s2)
  | (.error e, s2) => (ResponseBuilder.fromError e now, s2)

/-- `DeviceController.listDevices` (the service never fails, so the catch
branch is unreachable; the match still mirrors it). -/
def DeviceController.listDevices (s : Store) (now : Nat) : ApiResponse (List Device) :=
  ResponseBuilder.success (DeviceService.listDevices s) now

/-- Sample creation payload, as in the unit tests of
src/tests/device.service.test.ts. -/
def sampleDeviceData : DeviceData :=
  { name := "Test Device"
    type := .axialFan
    status := .online
    lastUpdate := 0
    metadata := {} }

/-- A validated update that only sets the status, as in the demo of
src/main.ts. -/
def maintenanceOnly : PartialDevice :=
  { status := some .maintenance }

/-- A metadata record carrying only a manufacturer. -/
def newCorpMeta : DeviceMetadata :=
  { manufacturer := some "NewCorp" }

/-- A validated update that only replaces the metadata record. -/
def newCorpMetaOnly : PartialDevice :=
  { metadata := some newCorpMeta }

/-- The invariant tying the `success` flag of an envelope to the presence of
its `data` and `error` fields. -/
def envelopeConsistent {T : Type} (r : ApiResponse T) : Prop :=
  r.error.isSome = !r.success ∧ r.data.isSome = r.success

/-- `Map.get` after `Map.set` at the same key yields the value just set. -/
theorem assocGet_assocSet_self {α : Type} (s : List (String × α)) (key : String) (v : α) :
    assocGet (assocSet s key v) key = some v := by
  induction s with
  | nil => simp [assocSet, assocGet]
  | cons hd tl ih =>
    obtain ⟨k, w⟩ := hd
    by_cases hk : k = key
    · simp [assocSet, hk, assocGet]
    · simp [assocSet, hk, assocGet, ih]

/-- `Map.delete` at an absent key reports `false` and leaves the entries
untouched. -/
theorem assocDelete_of_get_none {α : Type} (s : List (String × α)) (key : String)
    (h : assocGet s key = none) : assocDelete s key = (false, s) := by
  induction s with
  | nil => rfl
  | cons hd tl ih =>
    obtain ⟨k, v⟩ := hd
    by_cases hk : k = key
    · subst hk; simp [assocGet] at h
    · simp only [assocGet, hk, if_false, if_neg] at h
      simp [assocDelete, hk, ih h]

/-- A device returned by `repoUpdate` carries the key it was updated under as
its id. -/
theorem repoUpdate_fst_id (s : Store) (id : String) (p : PartialDevice) (now : Nat)
    (u : Device) (h : (repoUpdate s id p now).1 = some u) : u.id = id := by
  unfold repoUpdate at h
  cases hg : assocGet s id with
  | none => rw [hg] at h; simp at h
  | some e =>
    rw [hg] at h
    simp only [Option.some.injEq] at h
    rw [← h]

/-- A bad `status` value makes `validateDeviceUpdate` fail with a
`ValidationError`, whatever the other fields look like. -/
theorem validateDeviceUpdate_bad_status (fields : List (String × Json)) (v : Json)
    (hs : assocGet fields "status" = some v) (hd : decodeStatus v = none) :
    ∃ m f, ValidationService.validateDeviceUpdate (.obj fields)
      = .error (.validation m f) := by
  cases hn : parseNameField (assocGet fields "name") with
  | error fm =>
    refine ⟨"Invalid " ++ fm.1 ++ ": " ++ fm.2, some fm.1, ?_⟩
    simp [ValidationService.validateDeviceUpdate, hn, mkZodValidationError]
  | ok nameOpt =>
    refine ⟨"Invalid status: Invalid enum value", some "status", ?_⟩
    simp [ValidationService.validateDeviceUpdate, hn, hs, parseStatusField, hd,
      mkZodValidationError]

/-- Claim C1 (corrected): for a stored device `e` and any partial update `p`,
`repository.update(e.id, p)` returns the device whose `name`, `type`,
`status` and `metadata` are `p`'s when provided and `e`'s otherwise, whose
`id` equals `e.id` even if `p` carries an `id` field, and whose `lastUpdate`
is re-stamped with the repository clock regardless of `p`; the record stored
under `e.id` equals the returned device. (The original claim, which demanded
that every omitted field — including `lastUpdate` — retain its prior value,
is refuted by `repoUpdate_restamps_lastUpdate`.) -/
theorem repoUpdate_partial_merge (s : Store) (e : Device) (p : PartialDevice) (now : Nat)
    (hstored : repoFindById s e.id = some e) :
    ∃ u, (repoUpdate s e.id p now).1 = some u
      ∧ u.id = e.id
      ∧ u.name = p.name.getD e.name
      ∧ u.type = p.type.getD e.type
      ∧ u.status = p.status.getD e.status
      ∧ u.metadata = p.metadata.getD e.metadata
      ∧ u.lastUpdate = now
      ∧ repoFindById (repoUpdate s e.id p now).2 e.id = some u := by
  have hget : assocGet s e.id = some e := hstored
  unfold repoUpdate repoFindById
  rw [hget]
  exact ⟨_, rfl, rfl, rfl, rfl, rfl, rfl, rfl, assocGet_assocSet_self ..⟩

/-- Counterexample to claim C1 as stated: the empty partial update touches no
field, yet updating the seeded first device at clock 1 does not return it
unchanged — its `lastUpdate` is re-stamped. -/
theorem repoUpdate_restamps_lastUpdate :
    (repoUpdate (initialStore 0 0) "device_001" {} 1).1 ≠ some (seedDevice1 0) := by
  decide

/-- Witness for C1: concrete instance updating the seeded first device with a
status-only partial update at clock 7. -/
theorem repoUpdate_partial_merge_witness :
    repoFindById (initialStore 0 0) (seedDevice1 0).id = some (seedDevice1 0)
    ∧ ∃ u, (repoUpdate (initialStore 0 0) (seedDevice1 0).id maintenanceOnly 7).1 = some u
      ∧ u.id = (seedDevice1 0).id
      ∧ u.name = maintenanceOnly.name.getD (seedDevice1 0).name
      ∧ u.type = maintenanceOnly.type.getD (seedDevice1 0).type
      ∧ u.status = maintenanceOnly.status.getD (seedDevice1 0).status
      ∧ u.metadata = maintenanceOnly.metadata.getD (seedDevice1 0).metadata
      ∧ u.lastUpdate = 7
      ∧ repoFindById (repoUpdate (initialStore 0 0) (seedDevice1 0).id maintenanceOnly 7).2
          (seedDevice1 0).id = some u :=
  ⟨by rfl, repoUpdate_partial_merge (initialStore 0 0) (seedDevice1 0) maintenanceOnly 7 (by rfl)⟩

/-- Claim C2: every controller method, on every store, identifier, body and
clock, returns an envelope (the functions are total by construction, the
try/catch of the controller being the only failure boundary) in which the
`error` field is present exactly when `success` is `false` and the `data`
field is present exactly when `success` is `true`. -/
theorem controller_envelope_totality (s : Store) (id : String) (body : Json) (now : Nat) :
    envelopeConsistent (DeviceController.getDevice s id now)
    ∧ envelopeConsistent (DeviceController.updateDevice s id body now).1
    ∧ envelopeConsistent (DeviceController.listDevices s now) := by
  refine ⟨?_, ?_, ?_⟩
  · cases h : DeviceService.getDevice s id <;>
      simp [DeviceController.getDevice, h, envelopeConsistent,
        ResponseBuilder.success, ResponseBuilder.fromError, ResponseBuilder.error]
  · rcases h : DeviceService.updateDevice s id body now with ⟨res, s2⟩
    cases res <;>
      simp [DeviceController.updateDevice, h, envelopeConsistent,
        ResponseBuilder.success, ResponseBuilder.fromError, ResponseBuilder.error]
  · simp [DeviceController.listDevices, envelopeConsistent, ResponseBuilder.success]

/-- Claim C3: on a well-formed identifier that is absent from the store, and
with a body that validates, `getDevice` and `updateDevice` fail with the
`NotFoundError` for that id (leaving the store as it was), and the repository
`delete` returns `false`; none of them returns a device or a default. -/
theorem notFound_symmetry (s : Store) (id : String) (body : Json)
    (u : DeviceUpdateRequest) (now : Nat)
    (hid : ValidationService.isValidId id = true)
    (habs : repoFindById s id = none)
    (hbody : ValidationService.validateDeviceUpdate body = .ok u) :
    DeviceService.getDevice s id = .error (.notFound "Device" id)
    ∧ DeviceService.updateDevice s id body now = (.error (.notFound "Device" id), s)
    ∧ repoDelete s id = (false, s) := by
  refine ⟨?_, ?_, ?_⟩
  · simp [DeviceService.getDevice, hid, habs]
  · simp [DeviceService.updateDevice, hid, hbody, habs]
  · exact assocDelete_of_get_none s id habs

/-- Witness for C3 at the seeded store and the absent identifier `missing`. -/
theorem notFound_symmetry_witness :
    DeviceService.getDevice (initialStore 0 0) "missing"
      = .error (.notFound "Device" "missing")
    ∧ DeviceService.updateDevice (initialStore 0 0) "missing" (Json.obj []) 4
      = (.error (.notFound "Device" "missing"), initialStore 0 0)
    ∧ repoDelete (initialStore 0 0) "missing" = (false, initialStore 0 0) :=
  notFound_symmetry (initialStore 0 0) "missing" (Json.obj []) {} 4
    (by decide) (by rfl) (by rfl)

/-- Claim C4: for a well-formed id and a body whose `status` entry is outside
the closed status enum, `DeviceService.updateDevice` fails with a
`ValidationError` and returns the store unchanged — the repository is never
touched, so a subsequent `get` sees the prior state. -/
theorem validation_blocks_mutation (s : Store) (id : String)
    (fields : List (String × Json)) (v : Json) (now : Nat)
    (hid : ValidationService.isValidId id = true)
    (hs : assocGet fields "status" = some v)
    (hd : decodeStatus v = none) :
    ∃ m f, DeviceService.updateDevice s id (.obj fields) now
      = (.error (.validation m f), s) := by
  obtain ⟨m, f, hv⟩ := validateDeviceUpdate_bad_status fields v hs hd
  exact ⟨m, f, by simp [DeviceService.updateDevice, hid, hv]⟩

/-- Witness for C4: the spec's own concrete scenario,
`update('device_001', (status: 'NOT_A_REAL_STATUS'))`. -/
theorem validation_blocks_mutation_witness :
    ∃ m f, DeviceService.updateDevice (initialStore 0 0) "device_001"
      (.obj [("status", Json.str "NOT_A_REAL_STATUS")]) 9
      = (.error (.validation m f), initialStore 0 0) :=
  validation_blocks_mutation (initialStore 0 0) "device_001"
    [("status", Json.str "NOT_A_REAL_STATUS")] (Json.str "NOT_A_REAL_STATUS") 9
    (by decide) (by rfl) (by rfl)

/-- Claim C6: `ResponseBuilder.fromError` produces a failure envelope whose
`error` is exactly the kind name and message of the error — the `code`,
`statusCode` and `field` properties of the richer error kinds, and the
`details` slot of `ApiError`, do not survive into the envelope. -/
theorem fromError_collapses {T : Type} (e : DomainError) (now : Nat) :
    (ResponseBuilder.fromError e now : ApiResponse T)
      = { success := false
          data := none
          error := some { code := e.name, message := e.message, details := none }
          timestamp := now } :=
  rfl

/-- Claim C7: `isValidId` accepts exactly the non-empty identifiers of length
at most 36, and on any rejected identifier `getDevice` fails with the
id-format `ValidationError` whatever the store contains (so before and
independently of any repository lookup). -/
theorem isValidId_spec (id : String) (s : Store) :
    (ValidationService.isValidId id = true ↔ id ≠ "" ∧ id.length ≤ 36)
    ∧ (ValidationService.isValidId id = false →
        DeviceService.getDevice s id = .error invalidIdError) := by
  constructor
  · simp only [ValidationService.isValidId, Bool.and_eq_true, decide_eq_true_eq]
    constructor
    · rintro ⟨h1, h2⟩
      refine ⟨fun he => ?_, h2⟩
      subst he
      simp at h1
    · rintro ⟨h1, h2⟩
      refine ⟨?_, h2⟩
      rcases Nat.eq_zero_or_pos id.length with h0 | hpos
      · exact absurd (String.ext (List.length_eq_zero.mp h0)) h1
      · exact hpos
  · intro h
    simp [DeviceService.getDevice, h]

/-- Witness for C7 at the malformed (empty) identifier. -/
theorem isValidId_spec_witness :
    ValidationService.isValidId "" = false
    ∧ DeviceService.getDevice (initialStore 0 0) "" = .error invalidIdError :=
  ⟨by decide, (isValidId_spec "" (initialStore 0 0)).2 (by decide)⟩

/-- Claim C8: when the injected repository reports absence at apply time even
though the preceding existence check succeeded, the service surfaces the
plain `Error('Failed to update device')` — whose kind name is `Error`, not
`NotFoundError` — rather than returning a device. -/
theorem update_internal_fault (find : String → Option Device)
    (applyUpdate : String → PartialDevice → Option Device)
    (id : String) (body : Json) (u : DeviceUpdateRequest) (e : Device) (now : Nat)
    (hid : ValidationService.isValidId id = true)
    (hbody : ValidationService.validateDeviceUpdate body = .ok u)
    (hfind : find id = some e)
    (happly : applyUpdate id (u.toPartialDevice now) = none) :
    DeviceService.updateDeviceWith find applyUpdate id body now
      = .error (.generic "Failed to update device")
    ∧ (DomainError.generic "Failed to update device").name = "Error"
    ∧ (DomainError.generic "Failed to update device").name
        ≠ (DomainError.notFound "Device" id).name := by
  refine ⟨?_, rfl, by simp [DomainError.name]⟩
  simp [DeviceService.updateDeviceWith, hid, hbody, hfind, happly]

/-- Witness for C8: a repository stub whose `findById` finds the seeded
device but whose `update` reports absence. -/
theorem update_internal_fault_witness :
    DeviceService.updateDeviceWith (fun _ => some (seedDevice1 0)) (fun _ _ => none)
      "device_001" (Json.obj []) 2
      = .error (.generic "Failed to update device")
    ∧ (DomainError.generic "Failed to update device").name = "Error"
    ∧ (DomainError.generic "Failed to update device").name
        ≠ (DomainError.notFound "Device" "device_001").name :=
  update_internal_fault (fun _ => some (seedDevice1 0)) (fun _ _ => none)
    "device_001" (Json.obj []) {} (seedDevice1 0) 2
    (by decide) (by rfl) (by rfl) (by rfl)

/-- Claim C9: when a validated update carries a metadata object, the
repository replaces the stored device's entire metadata record with it —
sub-fields omitted from the new metadata do not retain their prior value,
because the spread merge is shallow at the top level only. -/
theorem update_metadata_wholesale (s : Store) (e : Device) (p : PartialDevice)
    (m : DeviceMetadata) (now : Nat)
    (hstored : repoFindById s e.id = some e)
    (hm : p.metadata = some m) :
    ∃ u, (repoUpdate s e.id p now).1 = some u ∧ u.metadata = m := by
  have hget : assocGet s e.id = some e := hstored
  unfold repoUpdate
  rw [hget]
  exact ⟨_, rfl, by simp [hm]⟩

/-- Witness for C9: replacing the seeded first device's metadata with a
manufacturer-only record drops its previously set `location`. -/
theorem update_metadata_wholesale_witness :
    (∃ u, (repoUpdate (initialStore 0 0) (seedDevice1 0).id newCorpMetaOnly 3).1 = some u
        ∧ u.metadata = newCorpMeta)
    ∧ (seedDevice1 0).metadata.location = some "Building A"
    ∧ newCorpMeta.location = none :=
  ⟨update_metadata_wholesale (initialStore 0 0) (seedDevice1 0) newCorpMetaOnly
      newCorpMeta 3 (by rfl) (by rfl), by rfl, by rfl⟩

/-- Claim C10: a freshly constructed repository is seeded with exactly the
two sample devices, stored under `device_001` and `device_002`; `findAll`
returns both and `findById('device_001')` succeeds with no prior `create`. -/
theorem initialStore_seeded (t1 t2 : Nat) :
    repoFindAll (initialStore t1 t2) = [seedDevice1 t1, seedDevice2 t2]
    ∧ (seedDevice1 t1).id = "device_001"
    ∧ (seedDevice2 t2).id = "device_002"
    ∧ repoFindById (initialStore t1 t2) "device_001" = some (seedDevice1 t1)
    ∧ (repoFindAll (initialStore t1 t2)).length = 2 :=
  ⟨rfl, rfl, rfl, rfl, rfl⟩

/-- Numeric value of a decimal digit character. -/
def digitVal (c : Char) : Nat := c.toNat - 48

/-- Value of a most-significant-first decimal digit string. -/
def decDigitsVal (l : List Char) : Nat :=
  l.foldl (fun a c => a * 10 + digitVal c) 0

theorem digitVal_digitChar (m : Nat) (h : m < 10) :
    digitVal (Nat.digitChar m) = m := by
  interval_cases m <;> decide

theorem digitChar_ne_underscore (m : Nat) (h : m < 10) :
    Nat.digitChar m ≠ '_' := by
  interval_cases m <;> decide

/-- `Nat.toDigitsCore` only ever prepends to its accumulator. -/
theorem toDigitsCore_shift (b f : Nat) :
    ∀ (n : Nat) (ds : List Char),
      Nat.toDigitsCore b f n ds = Nat.toDigitsCore b f n [] ++ ds := by
  induction f with
  | zero => intro n ds; simp [Nat.toDigitsCore]
  | succ f ih =>
    intro n ds
    simp only [Nat.toDigitsCore]
    by_cases h : n / b = 0
    · simp [h]
    · rw [if_neg h, if_neg h, ih (n / b) (Nat.digitChar (n % b) :: ds),
        ih (n / b) [Nat.digitChar (n % b)], List.append_assoc, List.singleton_append]

theorem decDigitsVal_append_digit (l : List Char) (c : Char) :
    decDigitsVal (l ++ [c]) = decDigitsVal l * 10 + digitVal c := by
  simp [decDigitsVal, List.foldl_append]

/-- Reading the decimal rendering of `n` back yields `n` (with enough fuel). -/
theorem decDigitsVal_toDigitsCore (f : Nat) :
    ∀ n : Nat, n < f → decDigitsVal (Nat.toDigitsCore 10 f n []) = n := by
  induction f with
  | zero => intro n h; omega
  | succ f ih =>
    intro n h
    simp only [Nat.toDigitsCore]
    by_cases h0 : n / 10 = 0
    · have hn10 : n < 10 := by omega
      rw [if_pos h0, Nat.mod_eq_of_lt hn10]
      simp [decDigitsVal, digitVal_digitChar n hn10]
    · rw [if_neg h0, toDigitsCore_shift 10 f (n / 10) [Nat.digitChar (n % 10)],
        decDigitsVal_append_digit]
      have hdiv : n / 10 < f := by omega
      rw [ih (n / 10) hdiv,
        digitVal_digitChar (n % 10) (Nat.mod_lt n (by norm_num))]
      omega

/-- The decimal rendering `Nat.repr` is injective. -/
theorem natRepr_inj {m n : Nat} (h : Nat.repr m = Nat.repr n) : m = n := by
  have hd : Nat.toDigits 10 m = Nat.toDigits 10 n := congrArg String.data h
  have hv := congrArg decDigitsVal hd
  rwa [show Nat.toDigits 10 m = Nat.toDigitsCore 10 (m + 1) m [] from rfl,
    show Nat.toDigits 10 n = Nat.toDigitsCore 10 (n + 1) n [] from rfl,
    decDigitsVal_toDigitsCore (m + 1) m (Nat.lt_succ_self m),
    decDigitsVal_toDigitsCore (n + 1) n (Nat.lt_succ_self n)] at hv

/-- Decimal renderings contain no underscore. -/
theorem underscore_not_mem_toDigitsCore (f : Nat) :
    ∀ (n : Nat) (ds : List Char), '_' ∉ ds → '_' ∉ Nat.toDigitsCore 10 f n ds := by
  induction f with
  | zero => intro n ds h; simpa [Nat.toDigitsCore] using h
  | succ f ih =>
    intro n ds h
    simp only [Nat.toDigitsCore]
    have hcons : '_' ∉ Nat.digitChar (n % 10) :: ds := by
      intro hmem
      rcases List.mem_cons.mp hmem with hc | hc
      · exact digitChar_ne_underscore (n % 10) (Nat.mod_lt n (by norm_num)) hc.symm
      · exact h hc
    by_cases h0 : n / 10 = 0
    · rw [if_pos h0]; exact hcons
    · rw [if_neg h0]; exact ih (n / 10) _ hcons

theorem underscore_not_mem_repr (n : Nat) : '_' ∉ (Nat.repr n).data :=
  underscore_not_mem_toDigitsCore (n + 1) n [] (by simp)

/-- Lists that agree and put their first separator at the same place split
identically: if neither prefix contains the separator, equal concatenations
force equal prefixes and equal suffixes. -/
theorem sep_split {a : List Char} :
    ∀ {c b d : List Char}, '_' ∉ a → '_' ∉ c →
      a ++ '_' :: b = c ++ '_' :: d → a = c ∧ b = d := by
  induction a with
  | nil =>
    intro c b d _ hc h
    cases c with
    | nil => simpa using h
    | cons y cs =>
      exfalso
      simp only [List.nil_append, List.cons_append, List.cons.injEq] at h
      exact hc (h.1 ▸ List.mem_cons_self _ _)
  | cons x xs ih =>
    intro c b d ha hc h
    cases c with
    | nil =>
      exfalso
      simp only [List.cons_append, List.nil_append, List.cons.injEq] at h
      exact ha (h.1 ▸ List.mem_cons_self _ _)
    | cons y cs =>
      simp only [List.cons_append, List.cons.injEq] at h
      obtain ⟨hxy, hrest⟩ := h
      have ha' : '_' ∉ xs := fun hm => ha (List.mem_cons_of_mem _ hm)
      have hc' : '_' ∉ cs := fun hm => hc (List.mem_cons_of_mem _ hm)
      obtain ⟨h1, h2⟩ := ih ha' hc' hrest
      exact ⟨by rw [hxy, h1], h2⟩

/-- Character-level decomposition of a generated identifier. -/
theorem generateId_data (now : Nat) (rand : String) :
    (generateId now rand).data
      = 'd' :: 'e' :: 'v' :: 'i' :: 'c' :: 'e' :: '_' ::
        ((Nat.repr now).data ++ '_' :: rand.data) := by
  simp [generateId, String.data_append, List.append_assoc]

theorem generateId_ne_empty (t : Nat) (r : String) : generateId t r ≠ "" := by
  intro h
  have hd := congrArg String.data h
  rw [generateId_data] at hd
  simp at hd

/-- Identifiers generated from different clock values or different random
suffixes differ: the decimal clock rendering contains no underscore, so the
first underscore after the fixed prefix splits the id unambiguously. -/
theorem generateId_inj (t1 t2 : Nat) (r1 r2 : String)
    (hne : t1 ≠ t2 ∨ r1 ≠ r2) :
    generateId t1 r1 ≠ generateId t2 r2 := by
  intro h
  have hd := congrArg String.data h
  rw [generateId_data, generateId_data] at hd
  simp only [List.cons.injEq, true_and] at hd
  obtain ⟨h1, h2⟩ :=
    sep_split (underscore_not_mem_repr t1) (underscore_not_mem_repr t2) hd
  rcases hne with hne | hne
  · exact hne (natRepr_inj (String.ext h1))
  · exact hne (String.ext h2)

theorem generateId_ne_device001 (t : Nat) (r : String) :
    generateId t r ≠ "device_001" := by
  intro h
  have hd := congrArg String.data h
  rw [generateId_data,
    show ("device_001" : String).data
      = 'd' :: 'e' :: 'v' :: 'i' :: 'c' :: 'e' :: '_' :: ['0', '0', '1'] from rfl] at hd
  simp only [List.cons.injEq, true_and] at hd
  have hmem : '_' ∈ (Nat.repr t).data ++ '_' :: r.data :=
    List.mem_append_right _ (List.mem_cons_self _ _)
  rw [hd] at hmem
  exact absurd hmem (by decide)

theorem generateId_ne_device002 (t : Nat) (r : String) :
    generateId t r ≠ "device_002" := by
  intro h
  have hd := congrArg String.data h
  rw [generateId_data,
    show ("device_002" : String).data
      = 'd' :: 'e' :: 'v' :: 'i' :: 'c' :: 'e' :: '_' :: ['0', '0', '2'] from rfl] at hd
  simp only [List.cons.injEq, true_and] at hd
  have hmem : '_' ∈ (Nat.repr t).data ++ '_' :: r.data :=
    List.mem_append_right _ (List.mem_cons_self _ _)
  rw [hd] at hmem
  exact absurd hmem (by decide)

/-- Claim C5 (corrected): a created device's id is non-empty, never collides
with the seeded ids, and is unchanged by any subsequent update; two `create`
calls yield distinct ids provided their clock-value/random-suffix draws
differ. The unconditional uniqueness of the original claim is refuted by
`create_identifier_collision`: the scheme relies on the clock and the random
generator never repeating a pair. -/
theorem create_identifier_stability (s : Store) (d1 d2 : DeviceData)
    (t1 t2 : Nat) (r1 r2 : String) (p : PartialDevice) (now : Nat)
    (hne : t1 ≠ t2 ∨ r1 ≠ r2) :
    ((repoCreate s d1 t1 r1).1).id ≠ ""
    ∧ ((repoCreate s d1 t1 r1).1).id
        ≠ ((repoCreate (repoCreate s d1 t1 r1).2 d2 t2 r2).1).id
    ∧ ((repoCreate s d1 t1 r1).1).id ≠ "device_001"
    ∧ ((repoCreate s d1 t1 r1).1).id ≠ "device_002"
    ∧ ∀ s2 u, (repoUpdate s2 ((repoCreate s d1 t1 r1).1).id p now).1 = some u →
        u.id = ((repoCreate s d1 t1 r1).1).id :=
  ⟨generateId_ne_empty t1 r1, generateId_inj t1 t2 r1 r2 hne,
    generateId_ne_device001 t1 r1, generateId_ne_device002 t1 r1,
    fun s2 u h => repoUpdate_fst_id s2 _ p now u h⟩

/-- Counterexample to claim C5 as stated: if two `create` calls draw the same
clock value and the same random suffix, both receive the same id, and the
second silently overwrites the first (the store grows by one entry, not two). -/
theorem create_identifier_collision :
    ((repoCreate (initialStore 0 0) sampleDeviceData 5 "k3j9q2h1p").1).id
      = ((repoCreate (repoCreate (initialStore 0 0) sampleDeviceData 5 "k3j9q2h1p").2
          sampleDeviceData 5 "k3j9q2h1p").1).id
    ∧ (repoFindAll
        (repoCreate (repoCreate (initialStore 0 0) sampleDeviceData 5 "k3j9q2h1p").2
          sampleDeviceData 5 "k3j9q2h1p").2).length = 3 :=
  ⟨rfl, rfl⟩

/-- Witness for C5 at two concrete draws differing in both components. -/
theorem create_identifier_stability_witness :
    ((repoCreate (initialStore 0 0) sampleDeviceData 1 "aaaaaaaaa").1).id ≠ ""
    ∧ ((repoCreate (initialStore 0 0) sampleDeviceData 1 "aaaaaaaaa").1).id
        ≠ ((repoCreate (repoCreate (initialStore 0 0) sampleDeviceData 1 "aaaaaaaaa").2
            sampleDeviceData 2 "bbbbbbbbb").1).id
    ∧ ((repoCreate (initialStore 0 0) sampleDeviceData 1 "aaaaaaaaa").1).id ≠ "device_001"
    ∧ ((repoCreate (initialStore 0 0) sampleDeviceData 1 "aaaaaaaaa").1).id ≠ "device_002"
    ∧ ∀ s2 u, (repoUpdate s2 ((repoCreate (initialStore 0 0) sampleDeviceData 1 "aaaaaaaaa").1).id
        maintenanceOnly 5).1 = some u →
        u.id = ((repoCreate (initialStore 0 0) sampleDeviceData 1 "aaaaaaaaa").1).id :=
  create_identifier_stability (initialStore 0 0) sampleDeviceData sampleDeviceData
    1 2 "aaaaaaaaa" "bbbbbbbbb" maintenanceOnly 5 (Or.inl (by decide))
